import Mathlib

/-!
Verification development for the repository's schema-verification checker and
its database session wrapper (`src/backend/src/db/database.py`).

The checker itself ships only as the specified component (its script is not
under `src/`); its data model and algorithm are therefore modelled from the
specification's §3 (data model), §4.1 (contract, diagnostics ordering and
algorithm), §6 (CLI surface) and §7 (error handling).  The session wrapper
(`engine`, `connect_args`, `create_db_and_tables`, `get_session`) is embedded
directly from `database.py`.
-/

namespace MigrationCheck

/-- Modelled from the spec: `IntrospectedSchema` (§3) — the live result of
querying the data store's metadata catalog: table names present, per-table
column names, foreign-key constraints per table, indexes per table.
Constraints and indexes are kept abstract as strings (only presence/counts
matter to the checker). -/
structure IntrospectedSchema where
  tables : List String
  columns : String → List String
  foreignKeys : String → List String
  indexes : String → List String

/-- Modelled from the spec: one diagnostic message of a `VerificationResult`
(§3, §4.1 diagnostics ordering), as a structured datum rather than a rendered
string so that claims about which tables/columns a message concerns are
directly statable. -/
inductive Diagnostic where
  | missingTable (name : String)
  | tableConfirmed (name : String)
  | missingColumn (table : String) (column : String)
  | fkWarning (table : String)
  | indexCount (table : String) (count : Nat)
  | connectionFailure (message : String)
deriving DecidableEq, Repr

/-- Modelled from the spec: `VerificationResult` (§3) — a boolean success flag
plus an ordered sequence of diagnostic messages. -/
structure VerificationResult where
  success : Bool
  diagnostics : List Diagnostic
deriving DecidableEq, Repr

/-- Modelled from the spec: `ExpectedSchema.requiredTables` (§3) — the fixed
required table names `user`, `session`, `account`, `verification`, kept in
sorted alphabetical order (§4.1 reports in sorted-alphabetical order). -/
def requiredTables : List String := ["account", "session", "user", "verification"]

/-- Modelled from the spec: `ExpectedSchema.requiredColumns` (§3) — per-table
required column names; only `user` and `session` are checked at column level. -/
def requiredColumns (t : String) : List String :=
  if t = "user" then ["id", "email", "createdAt"]
  else if t = "session" then ["id", "userId", "expiresAt", "token"]
  else []

/-- Required tables absent from the introspected schema (spec §4.1 step 2:
`missingTables = requiredTables − existingTables`). -/
def missingTables (s : IntrospectedSchema) : List String :=
  requiredTables.filter (fun t => !(s.tables.contains t))

/-- Required columns of table `t` absent from the introspected schema
(spec §4.1 step 3: set-difference against required columns). -/
def missingColumns (s : IntrospectedSchema) (t : String) : List String :=
  (requiredColumns t).filter (fun c => !((s.columns t).contains c))

/-- Per-table existence confirmation messages, appended in the fixed
sorted-alphabetical order of `requiredTables` (spec §4.1 ordering item 2). -/
def tableConfirmations : List Diagnostic :=
  requiredTables.map Diagnostic.tableConfirmed

/-- Warning diagnostics for absent foreign keys on `session` and `account`
(spec §4.1 step 4: absence is a warning, not a failure). -/
def fkWarnings (s : IntrospectedSchema) : List Diagnostic :=
  (if s.foreignKeys "session" = [] then [Diagnostic.fkWarning "session"] else []) ++
    (if s.foreignKeys "account" = [] then [Diagnostic.fkWarning "account"] else [])

/-- Informational index-count diagnostics for `user` and `session`
(spec §4.1 step 5: counts only). -/
def indexReports (s : IntrospectedSchema) : List Diagnostic :=
  [Diagnostic.indexCount "user" (s.indexes "user").length,
   Diagnostic.indexCount "session" (s.indexes "session").length]

/-- Modelled from the spec: the checker's core on an already-introspected
schema (§4.1 algorithm steps 2–6 and the diagnostics ordering): short-circuit
on missing tables; otherwise confirmations, then the `user` column check, then
the `session` column check, each short-circuiting with failure; otherwise
foreign-key warnings and index counts, with success. -/
def verifySchema (s : IntrospectedSchema) : VerificationResult :=
  if missingTables s = [] then
    if missingColumns s "user" = [] then
      if missingColumns s "session" = [] then
        ⟨true, tableConfirmations ++ fkWarnings s ++ indexReports s⟩
      else
        ⟨false, tableConfirmations ++
          (missingColumns s "session").map (Diagnostic.missingColumn "session")⟩
    else
      ⟨false, tableConfirmations ++
        (missingColumns s "user").map (Diagnostic.missingColumn "user")⟩
  else
    ⟨false, (missingTables s).map Diagnostic.missingTable⟩

/-- Modelled from the spec: `verify` (§4.1 public contract together with the
error condition of §4.1/§7): the introspection outcome is either a schema or a
connection/introspection failure message; a failure yields `success = false`
with a single diagnostic describing it. -/
def verify (outcome : Except String IntrospectedSchema) : VerificationResult :=
  match outcome with
  | .error e => ⟨false, [Diagnostic.connectionFailure e]⟩
  | .ok s => verifySchema s

/-- Modelled from the spec: the four read-only metadata capabilities the
checker requires from its data-access collaborator (§6 external collaborator
interface): list table names, list columns, list foreign keys, list indexes
for a table. -/
inductive DbOp where
  | listTables
  | listColumns (table : String)
  | listForeignKeys (table : String)
  | listIndexes (table : String)
deriving DecidableEq, Repr

/-- Effects a database client may exert on the external world (spec §4.1 side
effects and §6 persisted state): metadata-only queries versus data reads,
data writes, schema mutation and file writes. -/
inductive DbEffect where
  | metadataRead (op : DbOp)
  | dataRead
  | dataWrite
  | schemaMutation
  | fileWrite
deriving DecidableEq, Repr

/-- An effect is a read-only metadata query. -/
def DbEffect.isReadOnlyMetadata : DbEffect → Bool
  | .metadataRead _ => true
  | _ => false

/-- Modelled from the spec: the sequence of metadata queries the checker
issues against an introspected-schema state (§4.1 algorithm): list tables;
if none missing, fetch the `user` column list, then (when `user` is complete)
the `session` column list, then (when both are complete) foreign keys for
`session` and `account` and indexes for `user` and `session`. -/
def verifyTrace (s : IntrospectedSchema) : List DbOp :=
  DbOp.listTables ::
    (if missingTables s = [] then
      DbOp.listColumns "user" ::
        (if missingColumns s "user" = [] then
          DbOp.listColumns "session" ::
            (if missingColumns s "session" = [] then
              [DbOp.listForeignKeys "session", DbOp.listForeignKeys "account",
               DbOp.listIndexes "user", DbOp.listIndexes "session"]
            else [])
        else [])
    else [])

/-- The effects of one checker run: each issued operation is a metadata read. -/
def verifyEffects (s : IntrospectedSchema) : List DbEffect :=
  (verifyTrace s).map DbEffect.metadataRead

/-- Semantics of a metadata query on the store's schema state: metadata
catalog queries read the catalog and leave the schema unchanged. -/
def applyOp (op : DbOp) (s : IntrospectedSchema) : IntrospectedSchema :=
  match op with
  | .listTables => s
  | .listColumns _ => s
  | .listForeignKeys _ => s
  | .listIndexes _ => s

/-- The schema state after a sequence of operations has been issued. -/
def runTrace (ops : List DbOp) (s : IntrospectedSchema) : IntrospectedSchema :=
  ops.foldl (fun s op => applyOp op s) s

/-- Modelled from the spec: the observable outcome of one CLI run (§6):
process exit code, the printed verification result (`none` when only the
missing-`DATABASE_URL` guidance is printed), whether a connection was
attempted, and the database effects issued. -/
structure RunResult where
  exitCode : Nat
  result : Option VerificationResult
  connectionAttempted : Bool
  effects : List DbEffect
deriving DecidableEq, Repr

/-- Modelled from the spec: the CLI entry point (§6, §7).  `databaseUrl` is
the value of the `DATABASE_URL` environment variable; `world` maps a
connection string to the introspection outcome (a schema, or a
connection/introspection failure).  Absent `DATABASE_URL`: guidance and exit 1
with no connection attempt.  Otherwise the verification result is printed and
mapped to the exit code; every failure is converted to a result, never an
unhandled fault. -/
def runCLI (databaseUrl : Option String)
    (world : String → Except String IntrospectedSchema) : RunResult :=
  match databaseUrl with
  | none => ⟨1, none, false, []⟩
  | some url =>
      let r := verify (world url)
      ⟨if r.success then 0 else 1, some r, true,
        match world url with
        | .error _ => []
        | .ok s => verifyEffects s⟩

end MigrationCheck

namespace Backend

/-- The configuration object imported as `settings` in `database.py`
(`src.config` is an external collaborator; only its `database_url` field is
read). -/
structure Settings where
  database_url : String

/-- Embeds `database.py` lines 14–16: `connect_args` is
`{"check_same_thread": False}` when `settings.database_url` starts with
`"sqlite"`, and `{}` otherwise. -/
def connect_args (settings : Settings) : List (String × Bool) :=
  if settings.database_url.startsWith "sqlite" then [("check_same_thread", false)] else []

/-- The engine produced by `create_engine` in `database.py`: the URL it was
created from, the `echo` flag, and the `connect_args` mapping. -/
structure Engine where
  url : String
  echo : Bool
  connectArgs : List (String × Bool)
deriving DecidableEq, Repr

/-- Embeds `database.py` lines 19–23: the module-level engine, created from
`settings.database_url` with `echo=False` and the `connect_args` computed
above. -/
def engine (settings : Settings) : Engine :=
  ⟨settings.database_url, false, connect_args settings⟩

/-- Embeds `database.py` lines 26–28: `create_db_and_tables` runs
`SQLModel.metadata.create_all(engine)`, a schema mutation of the store. -/
def create_db_and_tables_effects : List MigrationCheck.DbEffect :=
  [MigrationCheck.DbEffect.schemaMutation]

/-- A session as handed out by `Session(engine)`: a handle bound to an
engine. -/
structure DbSession where
  boundEngine : Engine
deriving DecidableEq, Repr

/-- Lifecycle events of the session handle. -/
inductive SessionEvent where
  | opened
  | closed
deriving DecidableEq, Repr

/-- Embeds `database.py` lines 31–34: `get_session` opens a session bound to
the module-level engine inside a `with` block and yields it to a consumer;
the `with` block's exit handler closes the session on both the normal and the
raising path of the consumer. -/
def get_session {α : Type} (settings : Settings)
    (consumer : DbSession → Except String α) :
    Except String α × List SessionEvent :=
  let s : DbSession := ⟨engine settings⟩
  match consumer s with
  | .ok a => (.ok a, [.opened, .closed])
  | .error e => (.error e, [.opened, .closed])

end Backend

open MigrationCheck Backend

theorem requiredTables_sorted : List.Sorted (· < ·) requiredTables := by
  unfold requiredTables
  simp [List.Sorted, List.pairwise_cons]
  refine ⟨?_, ?_, ?_⟩ <;> decide

theorem missingTables_eq_nil_iff (s : IntrospectedSchema) :
    missingTables s = [] ↔ ∀ t ∈ requiredTables, t ∈ s.tables := by
  simp [missingTables, List.filter_eq_nil_iff]

theorem missingColumns_eq_nil_iff (s : IntrospectedSchema) (t : String) :
    missingColumns s t = [] ↔ ∀ c ∈ requiredColumns t, c ∈ s.columns t := by
  simp [missingColumns, List.filter_eq_nil_iff]

theorem mem_missingTables (s : IntrospectedSchema) (t : String) :
    t ∈ missingTables s ↔ t ∈ requiredTables ∧ t ∉ s.tables := by
  simp [missingTables, List.mem_filter]

theorem mem_missingColumns (s : IntrospectedSchema) (t c : String) :
    c ∈ missingColumns s t ↔ c ∈ requiredColumns t ∧ c ∉ s.columns t := by
  simp [missingColumns, List.mem_filter]

theorem verifySchema_success_iff (s : IntrospectedSchema) :
    (verifySchema s).success = true ↔
      missingTables s = [] ∧ missingColumns s "user" = [] ∧ missingColumns s "session" = [] := by
  unfold verifySchema
  split_ifs with h1 h2 h3 <;> simp_all

/-- C1: `verify` on a successfully introspected schema succeeds if and only if
every required table is present, every required column of `user` is present
and every required column of `session` is present; the `account` and
`verification` tables are never checked at column level — no column-level
diagnostic about them ever appears. -/
theorem verify_success_iff (s : IntrospectedSchema) :
    ((verify (.ok s)).success = true ↔
      (∀ t ∈ requiredTables, t ∈ s.tables) ∧
      (∀ c ∈ requiredColumns "user", c ∈ s.columns "user") ∧
      (∀ c ∈ requiredColumns "session", c ∈ s.columns "session")) ∧
    (∀ c : String,
      Diagnostic.missingColumn "account" c ∉ (verify (.ok s)).diagnostics ∧
      Diagnostic.missingColumn "verification" c ∉ (verify (.ok s)).diagnostics) := by
  constructor
  · rw [show verify (.ok s) = verifySchema s from rfl, verifySchema_success_iff,
      missingTables_eq_nil_iff, missingColumns_eq_nil_iff, missingColumns_eq_nil_iff]
  · intro c
    rw [show verify (.ok s) = verifySchema s from rfl]
    unfold verifySchema
    split_ifs <;> simp [tableConfirmations, fkWarnings, indexReports]

/-- C2: whenever any required tables are absent, `verify` fails, its
diagnostics are exactly one missing-table message per absent required table in
the sorted alphabetical order, and no column, foreign-key or index diagnostic
is emitted (the later checks are skipped). -/
theorem verify_missing_tables (s : IntrospectedSchema) (h : missingTables s ≠ []) :
    (verify (.ok s)).success = false ∧
    (verify (.ok s)).diagnostics = (missingTables s).map Diagnostic.missingTable ∧
    (∀ t, t ∈ missingTables s ↔ t ∈ requiredTables ∧ t ∉ s.tables) ∧
    List.Sorted (· < ·) (missingTables s) ∧
    (∀ d ∈ (verify (.ok s)).diagnostics, ∃ t, d = Diagnostic.missingTable t) := by
  have hv : verify (.ok s) =
      ⟨false, (missingTables s).map Diagnostic.missingTable⟩ := by
    rw [show verify (.ok s) = verifySchema s from rfl]
    unfold verifySchema
    rw [if_neg h]
  refine ⟨by rw [hv], by rw [hv], fun t => mem_missingTables s t,
    requiredTables_sorted.filter _, ?_⟩
  rw [hv]
  intro d hd
  rcases List.mem_map.1 hd with ⟨t, _, rfl⟩
  exact ⟨t, rfl⟩

/-- A schema exposing only a `user` table; used to witness the missing-table
behaviour. -/
def schemaOnlyUser : IntrospectedSchema :=
  ⟨["user"], fun _ => [], fun _ => [], fun _ => []⟩

/-- Witness for C2 at a schema exposing only a `user` table. -/
theorem verify_missing_tables_witness :
    (verify (.ok schemaOnlyUser)).success = false ∧
    (verify (.ok schemaOnlyUser)).diagnostics =
      (missingTables schemaOnlyUser).map Diagnostic.missingTable :=
  ⟨(verify_missing_tables schemaOnlyUser (by decide)).1,
   (verify_missing_tables schemaOnlyUser (by decide)).2.1⟩

/-- C3: with all four required tables present, the `user` column check comes
first and short-circuits: when `user` lacks some required column, `verify`
fails, its diagnostics are the table confirmations followed by one
missing-column message per absent `user` column, and no diagnostic about the
`session` table's columns appears. -/
theorem verify_user_columns_short_circuit (s : IntrospectedSchema)
    (htab : ∀ t ∈ requiredTables, t ∈ s.tables)
    (hcol : ∃ c ∈ requiredColumns "user", c ∉ s.columns "user") :
    (verify (.ok s)).success = false ∧
    (verify (.ok s)).diagnostics =
      tableConfirmations ++
        (missingColumns s "user").map (Diagnostic.missingColumn "user") ∧
    (∀ c, c ∈ missingColumns s "user" ↔
      c ∈ requiredColumns "user" ∧ c ∉ s.columns "user") ∧
    (∀ c, Diagnostic.missingColumn "session" c ∉ (verify (.ok s)).diagnostics) := by
  have htab' : missingTables s = [] := (missingTables_eq_nil_iff s).2 htab
  have hcol' : missingColumns s "user" ≠ [] := by
    rcases hcol with ⟨c, hc, hcn⟩
    intro hnil
    exact hcn ((missingColumns_eq_nil_iff s "user").1 hnil c hc)
  have hv : verify (.ok s) =
      ⟨false, tableConfirmations ++
        (missingColumns s "user").map (Diagnostic.missingColumn "user")⟩ := by
    rw [show verify (.ok s) = verifySchema s from rfl]
    unfold verifySchema
    rw [if_pos htab', if_neg hcol']
  refine ⟨by rw [hv], by rw [hv], fun c => mem_missingColumns s "user" c, ?_⟩
  intro c
  rw [hv]
  simp [tableConfirmations]

/-- A schema with all four required tables whose `session` table has every
required column but whose `user` table has none; used to witness the `user`
column short-circuit. -/
def schemaUserColumnsMissing : IntrospectedSchema :=
  ⟨["account", "session", "user", "verification"],
   fun t => if t = "session" then ["id", "userId", "expiresAt", "token"] else [],
   fun _ => [], fun _ => []⟩

/-- Witness for C3 at a schema whose `user` table lacks all required
columns. -/
theorem verify_user_columns_short_circuit_witness :
    (verify (.ok schemaUserColumnsMissing)).success = false ∧
    (∀ c, Diagnostic.missingColumn "session" c ∉
      (verify (.ok schemaUserColumnsMissing)).diagnostics) :=
  ⟨(verify_user_columns_short_circuit schemaUserColumnsMissing
      (by decide) (by decide)).1,
   (verify_user_columns_short_circuit schemaUserColumnsMissing
      (by decide) (by decide)).2.2.2⟩

/-- C4: with all required tables and columns present, `verify` succeeds no
matter what the foreign-key or index metadata say; absent foreign keys on
`session`/`account` only add warning diagnostics, the outcome is insensitive
to any foreign-key and index data, and the CLI exit status is 0. -/
theorem verify_warnings_do_not_fail (s : IntrospectedSchema)
    (htab : ∀ t ∈ requiredTables, t ∈ s.tables)
    (huser : ∀ c ∈ requiredColumns "user", c ∈ s.columns "user")
    (hsess : ∀ c ∈ requiredColumns "session", c ∈ s.columns "session") :
    (verify (.ok s)).success = true ∧
    (s.foreignKeys "session" = [] →
      Diagnostic.fkWarning "session" ∈ (verify (.ok s)).diagnostics) ∧
    (s.foreignKeys "account" = [] →
      Diagnostic.fkWarning "account" ∈ (verify (.ok s)).diagnostics) ∧
    (∀ s' : IntrospectedSchema, s'.tables = s.tables → s'.columns = s.columns →
      (verifySchema s').success = (verifySchema s).success) ∧
    (∀ url world, world url = Except.ok s → (runCLI (some url) world).exitCode = 0) := by
  have htab' : missingTables s = [] := (missingTables_eq_nil_iff s).2 htab
  have huser' : missingColumns s "user" = [] := (missingColumns_eq_nil_iff s "user").2 huser
  have hsess' : missingColumns s "session" = [] :=
    (missingColumns_eq_nil_iff s "session").2 hsess
  have hsucc : (verifySchema s).success = true :=
    (verifySchema_success_iff s).2 ⟨htab', huser', hsess'⟩
  have hv : verify (.ok s) =
      ⟨true, tableConfirmations ++ fkWarnings s ++ indexReports s⟩ := by
    rw [show verify (.ok s) = verifySchema s from rfl]
    unfold verifySchema
    rw [if_pos htab', if_pos huser', if_pos hsess']
  refine ⟨hsucc, ?_, ?_, ?_, ?_⟩
  · intro hfk
    rw [hv]
    simp [fkWarnings, hfk]
  · intro hfk
    rw [hv]
    simp [fkWarnings, hfk]
  · intro s' hts hcs
    have : missingTables s' = missingTables s := by simp [missingTables, hts]
    have hc : ∀ t, missingColumns s' t = missingColumns s t := by
      intro t; simp [missingColumns, hcs]
    rw [hsucc, verifySchema_success_iff]
    exact ⟨this.trans htab', (hc "user").trans huser', (hc "session").trans hsess'⟩
  · intro url world hw
    simp [runCLI, hw, show verify (Except.ok s) = verifySchema s from rfl, hsucc]

/-- A schema with every required table and column, no foreign keys anywhere
and no indexes; used to witness that warnings do not fail the run. -/
def schemaComplete : IntrospectedSchema :=
  ⟨["account", "session", "user", "verification"],
   fun t =>
     if t = "user" then ["id", "email", "createdAt"]
     else if t = "session" then ["id", "userId", "expiresAt", "token"]
     else [],
   fun _ => [], fun _ => []⟩

/-- Witness for C4 at a complete schema with zero foreign keys. -/
theorem verify_warnings_do_not_fail_witness :
    (verify (.ok schemaComplete)).success = true ∧
    Diagnostic.fkWarning "session" ∈ (verify (.ok schemaComplete)).diagnostics :=
  ⟨(verify_warnings_do_not_fail schemaComplete (by decide) (by decide) (by decide)).1,
   (verify_warnings_do_not_fail schemaComplete
      (by decide) (by decide) (by decide)).2.1 rfl⟩

theorem runTrace_eq_self (ops : List DbOp) (s : IntrospectedSchema) :
    runTrace ops s = s := by
  induction ops with
  | nil => rfl
  | cons op ops ih =>
      have hop : applyOp op s = s := by cases op <;> rfl
      show runTrace ops (applyOp op s) = s
      rw [hop, ih]

/-- C5: a checker run is idempotent — its metadata queries leave the schema
unchanged, so a second run against the resulting state returns the identical
`VerificationResult` (same success flag, same ordered diagnostics). -/
theorem verify_idempotent (s : IntrospectedSchema) :
    verifySchema (runTrace (verifyTrace s) s) = verifySchema s ∧
    runTrace (verifyTrace s) s = s := by
  refine ⟨?_, runTrace_eq_self _ s⟩
  rw [runTrace_eq_self]

/-- C6: when the connection cannot be established or introspection raises,
the run still yields a `VerificationResult` (no unhandled fault): it has
`success = false` with exactly the one diagnostic describing the failure, and
the process exits with the non-zero status 1. -/
theorem runCLI_connection_failure (url : String)
    (world : String → Except String IntrospectedSchema) (e : String)
    (h : world url = .error e) :
    runCLI (some url) world =
      ⟨1, some ⟨false, [Diagnostic.connectionFailure e]⟩, true, []⟩ := by
  simp [runCLI, h, verify]

/-- Witness for C6 at a world whose every connection attempt raises. -/
theorem runCLI_connection_failure_witness :
    runCLI (some "postgresql://db.invalid/app")
        (fun _ => .error "connection refused") =
      ⟨1, some ⟨false, [Diagnostic.connectionFailure "connection refused"]⟩, true, []⟩ :=
  runCLI_connection_failure "postgresql://db.invalid/app"
    (fun _ => .error "connection refused") "connection refused" rfl

/-- C7: with no `DATABASE_URL` in the environment the run exits with status 1
immediately: no connection is attempted and no database effect is issued,
whatever the external world would have answered. -/
theorem runCLI_missing_env (world : String → Except String IntrospectedSchema) :
    runCLI none world = ⟨1, none, false, []⟩ := rfl

/-- C8: every run of the tool is read-only with respect to the external
world: each effect it issues is a metadata-only query, and in particular no
schema mutation, data write, data read or file write ever occurs. -/
theorem runCLI_read_only (databaseUrl : Option String)
    (world : String → Except String IntrospectedSchema) :
    (runCLI databaseUrl world).effects.all DbEffect.isReadOnlyMetadata = true ∧
    DbEffect.schemaMutation ∉ (runCLI databaseUrl world).effects ∧
    DbEffect.dataWrite ∉ (runCLI databaseUrl world).effects ∧
    DbEffect.dataRead ∉ (runCLI databaseUrl world).effects ∧
    DbEffect.fileWrite ∉ (runCLI databaseUrl world).effects := by
  have hall : (runCLI databaseUrl world).effects.all DbEffect.isReadOnlyMetadata = true := by
    cases databaseUrl with
    | none => rfl
    | some url =>
        cases hw : world url with
        | error e => simp [runCLI, hw]
        | ok s =>
            simp only [runCLI, hw, verifyEffects, List.all_eq_true]
            intro e he
            rcases List.mem_map.1 he with ⟨op, _, rfl⟩
            rfl
  refine ⟨hall, ?_, ?_, ?_, ?_⟩ <;>
    ·  intro hmem
       have := List.all_eq_true.1 hall _ hmem
       simp [DbEffect.isReadOnlyMetadata] at this

/-- C9: the session handle opened by `get_session` is closed on every exit
path: for every consumer — including one that raises — the lifecycle trace is
exactly one open followed by one close. -/
theorem get_session_closes_on_all_paths {α : Type} (settings : Settings)
    (consumer : DbSession → Except String α) :
    (get_session settings consumer).2 =
      [SessionEvent.opened, SessionEvent.closed] := by
  cases h : consumer ⟨engine settings⟩ <;> simp [get_session, h]

/-- C10: the engine's `connect_args` are `{"check_same_thread": false}`
exactly when `settings.database_url` starts with `"sqlite"` and empty
otherwise; the engine is built from `settings.database_url` with SQL echoing
disabled; and every session yielded by `get_session` is bound to that same
engine. -/
theorem engine_configuration {α : Type} (settings : Settings)
    (consumer : DbSession → Except String α) :
    (connect_args settings = [("check_same_thread", false)] ↔
      settings.database_url.startsWith "sqlite" = true) ∧
    (settings.database_url.startsWith "sqlite" = false → connect_args settings = []) ∧
    (engine settings).echo = false ∧
    (engine settings).url = settings.database_url ∧
    (engine settings).connectArgs = connect_args settings ∧
    (get_session settings consumer).1 = consumer ⟨engine settings⟩ := by
  have hsess : (get_session settings consumer).1 = consumer ⟨engine settings⟩ := by
    cases h : consumer ⟨engine settings⟩ <;> simp [get_session, h]
  by_cases hs : settings.database_url.startsWith "sqlite" <;>
    simp [connect_args, engine, hs, hsess]
